import Mathlib

/-!
Shallow embedding of the core game logic of the `pingpong` repository.

Two store modules are embedded:

* the power-up engine (`src/client/src/lib/stores/usePowerUps.tsx`):
  pickup collection, active-effect bookkeeping, expiry sweeps,
  enable/disable; and
* the ping-pong match store (`src/client/src/lib/stores/usePingPong.ts`,
  also present verbatim in the second half of `usePowerUps.tsx`):
  per-frame physics (`updateGame`, `updateBallPositions`), computer AI
  targeting, scoring, difficulty progression, pause/reset.

Modelling conventions:

* JavaScript numbers are modelled by `ℚ` (exact arithmetic); all the
  properties proved below concern signs, clamping bounds, integer
  counters and list shapes, none of which depend on float rounding.
* Timestamps (`Date.now()`) are `ℕ` milliseconds passed explicitly.
* `Math.random()` samples are passed explicitly as parameters.
* `Math.cos`, `Math.sin`, `Math.sqrt` are transcendental, so the
  physics step takes a `Trig` bundle of rational-valued stand-ins;
  theorems assume of them only facts true of the real functions on the
  relevant argument ranges (`sqrt` is nonnegative, `cos` is positive on
  angles of magnitude at most `π/4`).
* Audio calls (`audio.playHit()` etc.) are fire-and-forget calls on an
  external collaborator with no effect on store state; they are omitted.
* `console.log` calls are omitted.
* Zustand `set` semantics: `set(fn)` passes the current state object to
  `fn` and shallow-merges the returned partial record into the store.
  Where the source performs nested `set` calls inside an outer `set`
  closure (as `updateGame` and `scorePoint` do), the closure keeps
  operating on the state object it captured, and the outer merge
  overwrites any field it returns; the embedding reproduces the net
  effect of that mechanism (documented at each definition concerned).
-/

/-! ## Power-up engine: data model (usePowerUps.tsx) -/

/-- The `PowerUpType` enum of the source. -/
inductive PowerUpType where
  | SPEED_BOOST
  | MULTI_BALL
  | PADDLE_EXTENDER
  | SLOW_MOTION
  | INVISIBILITY
  | SHRINK_OPPONENT
deriving DecidableEq, Repr

/-- The `PowerUpTarget` enum of the source. -/
inductive PowerUpTarget where
  | PLAYER
  | COMPUTER
  | BALL
  | GAME
deriving DecidableEq, Repr

/-- Static configuration record for one power-up type (`PowerUpConfig`). -/
structure PowerUpConfig where
  type : PowerUpType
  name : String
  descr : String
  duration : ℕ
  color : String
  target : PowerUpTarget
  probability : ℕ
deriving DecidableEq, Repr

/-- An installed, time-bounded effect (`ActivePowerUp`). -/
structure ActivePowerUp where
  type : PowerUpType
  endTime : ℕ
  target : PowerUpTarget
deriving DecidableEq, Repr

/-- A pickup present on the field (`SpawnedPowerUp`). -/
structure SpawnedPowerUp where
  id : String
  type : PowerUpType
  x : ℚ
  y : ℚ
  radius : ℚ
  color : String
deriving DecidableEq, Repr

/-- The static `powerUpConfigs` record of the store.  It is a state field
in the source but is initialised once and never written, so it is
embedded as a constant function. -/
def powerUpConfigs : PowerUpType → PowerUpConfig
  | .SPEED_BOOST =>
      ⟨.SPEED_BOOST, "Speed Boost", "Increases ball speed", 7000,
        "#FF5733", .BALL, 15⟩
  | .MULTI_BALL =>
      ⟨.MULTI_BALL, "Multi-Ball", "Adds extra balls", 10000,
        "#C70039", .GAME, 10⟩
  | .PADDLE_EXTENDER =>
      ⟨.PADDLE_EXTENDER, "Paddle Extender", "Increases your paddle size", 8000,
        "#33FF57", .PLAYER, 20⟩
  | .SLOW_MOTION =>
      ⟨.SLOW_MOTION, "Slow Motion", "Decreases ball speed", 6000,
        "#3498DB", .BALL, 15⟩
  | .INVISIBILITY =>
      ⟨.INVISIBILITY, "Invisibility", "Makes the ball partially invisible", 5000,
        "#9B59B6", .BALL, 10⟩
  | .SHRINK_OPPONENT =>
      ⟨.SHRINK_OPPONENT, "Shrink Opponent", "Reduces computer paddle size", 8000,
        "#F1C40F", .COMPUTER, 15⟩

/-- Mutable state of the power-up store (`PowerUpsState` without the
static configuration and the method fields). -/
structure PowerUpsState where
  activePowerUps : List ActivePowerUp
  spawnedPowerUps : List SpawnedPowerUp
  nextSpawnTime : ℕ
  spawnInterval : ℕ
  maxPowerUps : ℕ
  isPowerUpSpawningEnabled : Bool
deriving DecidableEq, Repr

/-- The store's initial state (`activePowerUps: []`, `spawnedPowerUps: []`,
`nextSpawnTime: 0`, `spawnInterval: 8000`, `maxPowerUps: 2`,
`isPowerUpSpawningEnabled: true`). -/
def initialPowerUpsState : PowerUpsState :=
  ⟨[], [], 0, 8000, 2, true⟩

/-! ## Power-up engine: operations -/

/-- `collectPowerUp(id, isPlayerCollecting)` at time `now` (`Date.now()`).
Returns the pair of the source's return value (the collected type, or
`null` when the id is unknown) and the updated store state.

The source locates the pickup with `findIndex` and reads it back by that
index, which is the first element whose `id` matches; it then filters the
pickup out of `spawnedPowerUps`, resolves the effective target (the
reversal applies only when the computer collects and only for the
PLAYER/COMPUTER targets), removes any active entry with the same type and
target, and appends the fresh entry with `endTime = now + duration`. -/
def collectPowerUp (s : PowerUpsState) (id : String) (isPlayerCollecting : Bool)
    (now : ℕ) : Option PowerUpType × PowerUpsState :=
  match s.spawnedPowerUps.find? (fun p => p.id == id) with
  | none => (none, s)
  | some collectedPowerUp =>
    let config := powerUpConfigs collectedPowerUp.type
    let spawned := s.spawnedPowerUps.filter (fun p => !(p.id == id))
    let effectiveTarget :=
      if isPlayerCollecting then
        config.target
      else
        match config.target with
        | .PLAYER => .COMPUTER
        | .COMPUTER => .PLAYER
        | other => other
    let newActivePowerUp : ActivePowerUp :=
      ⟨collectedPowerUp.type, now + config.duration, effectiveTarget⟩
    let filteredActivePowerUps := s.activePowerUps.filter
      (fun p => !(p.type == newActivePowerUp.type && p.target == newActivePowerUp.target))
    (some collectedPowerUp.type,
      { s with
        spawnedPowerUps := spawned,
        activePowerUps := filteredActivePowerUps ++ [newActivePowerUp] })

/-- `checkExpiredPowerUps` at time `now`: drop every active effect whose
`endTime` has passed.  (The source writes the filtered list back only
when its length changed; the resulting state is the same either way.) -/
def checkExpiredPowerUps (s : PowerUpsState) (now : ℕ) : PowerUpsState :=
  { s with activePowerUps := s.activePowerUps.filter (fun p => now < p.endTime) }

/-- `isActive(type, target)` at time `now`. -/
def isActive (s : PowerUpsState) (type : PowerUpType) (target : PowerUpTarget)
    (now : ℕ) : Bool :=
  s.activePowerUps.any (fun p => p.type == type && p.target == target && now < p.endTime)

/-- `getBallSpeedMultiplier`: product of the active ball-speed effects. -/
def getBallSpeedMultiplier (s : PowerUpsState) (now : ℕ) : ℚ :=
  let m1 : ℚ := if isActive s .SPEED_BOOST .BALL now then 8/5 else 1
  let m2 : ℚ := if isActive s .SLOW_MOTION .BALL now then 3/5 else 1
  m1 * m2

/-- `getPlayerPaddleHeightMultiplier`. -/
def getPlayerPaddleHeightMultiplier (s : PowerUpsState) (now : ℕ) : ℚ :=
  let m1 : ℚ := if isActive s .PADDLE_EXTENDER .PLAYER now then 3/2 else 1
  let m2 : ℚ := if isActive s .SHRINK_OPPONENT .PLAYER now then 3/5 else 1
  m1 * m2

/-- `getComputerPaddleHeightMultiplier`. -/
def getComputerPaddleHeightMultiplier (s : PowerUpsState) (now : ℕ) : ℚ :=
  let m1 : ℚ := if isActive s .PADDLE_EXTENDER .COMPUTER now then 3/2 else 1
  let m2 : ℚ := if isActive s .SHRINK_OPPONENT .COMPUTER now then 3/5 else 1
  m1 * m2

/-- `enablePowerUps`. -/
def enablePowerUps (s : PowerUpsState) : PowerUpsState :=
  { s with isPowerUpSpawningEnabled := true }

/-- `disablePowerUps`: disabling also clears both the field pickups and
the active effects. -/
def disablePowerUps (s : PowerUpsState) : PowerUpsState :=
  { s with
    isPowerUpSpawningEnabled := false,
    spawnedPowerUps := [],
    activePowerUps := [] }

/-- Operations of the power-up store that touch the active-effect list,
used to state properties over arbitrary call sequences. -/
inductive PUOp where
  | collect (id : String) (isPlayerCollecting : Bool) (now : ℕ)
  | sweep (now : ℕ)
  | enable
  | disable

/-- Apply one power-up store operation. -/
def runPUOp (op : PUOp) (s : PowerUpsState) : PowerUpsState :=
  match op with
  | .collect id byPlayer now => (collectPowerUp s id byPlayer now).2
  | .sweep now => checkExpiredPowerUps s now
  | .enable => enablePowerUps s
  | .disable => disablePowerUps s

/-- Apply a sequence of power-up store operations, left to right. -/
def runPUOps (ops : List PUOp) (s : PowerUpsState) : PowerUpsState :=
  ops.foldl (fun s op => runPUOp op s) s

/-- At most one active entry per `(type, target)` pair: no two distinct
positions of the list carry the same pair. -/
def pairAtMostOnce (l : List ActivePowerUp) : Prop :=
  l.Pairwise (fun a b => ¬(a.type = b.type ∧ a.target = b.target))

/-! ## Ping-pong store: data model (usePingPong.ts) -/

/-- The two scoring sides (the `"player" | "computer"` string union). -/
inductive Side where
  | player
  | computer
deriving DecidableEq, Repr

/-- A ball (`Ball` interface): identity, position, velocity and the
main-ball flag (only the main ball affects scoring and AI). -/
structure Ball where
  id : String
  x : ℚ
  y : ℚ
  speedX : ℚ
  speedY : ℚ
  isMainBall : Bool
deriving DecidableEq, Repr

/-- Mutable state of the ping-pong store (`PingPongState` without the
method fields).  `winner : Option Side` models the `GameWinner` union
(`none` = `null`), and `lastRandomOffset : Option ℚ` models the
`number | null` field. -/
structure PingPongState where
  canvasWidth : ℚ
  canvasHeight : ℚ
  paddleWidth : ℚ
  paddleHeight : ℚ
  ballSize : ℚ
  playerPaddleY : ℚ
  computerPaddleY : ℚ
  balls : List Ball
  ballX : ℚ
  ballY : ℚ
  ballSpeedX : ℚ
  ballSpeedY : ℚ
  playerScore : ℕ
  computerScore : ℕ
  isGameStarted : Bool
  isGameOver : Bool
  isPaused : Bool
  winner : Option Side
  frameCount : ℕ
  lastRandomOffset : Option ℚ
  pointsToWin : ℕ
  initialBallSpeed : ℚ
  ballSpeedIncrement : ℚ
  currentLevel : ℕ
  maxLevel : ℕ
  computerBaseSpeed : ℚ
  computerSpeedMultiplier : ℚ
  predictionAccuracy : ℚ
deriving DecidableEq, Repr

/-- The store's initial state (the literal defaults of the `create`
call: 800x600 canvas, paddles 15x100, ball size 15, scores 0, level 1 of
5, `pointsToWin: 5`, `initialBallSpeed: 5`, `ballSpeedIncrement: 0.2`,
`computerBaseSpeed: 3`, `computerSpeedMultiplier: 1`,
`predictionAccuracy: 0.5`, empty `balls`). -/
def initialPingPongState : PingPongState where
  canvasWidth := 800
  canvasHeight := 600
  paddleWidth := 15
  paddleHeight := 100
  ballSize := 15
  playerPaddleY := 300
  computerPaddleY := 300
  balls := []
  ballX := 400
  ballY := 300
  ballSpeedX := 5
  ballSpeedY := 0
  playerScore := 0
  computerScore := 0
  isGameStarted := false
  isGameOver := false
  isPaused := false
  winner := none
  frameCount := 0
  lastRandomOffset := none
  pointsToWin := 5
  initialBallSpeed := 5
  ballSpeedIncrement := 1/5
  currentLevel := 1
  maxLevel := 5
  computerBaseSpeed := 3
  computerSpeedMultiplier := 1
  predictionAccuracy := 1/2

/-- Rational stand-ins for the transcendental functions the physics step
calls.  `cosQ n` and `sinQ n` stand for `Math.cos(n * π/4)` and
`Math.sin(n * π/4)` where `n` is the normalized paddle intersection the
source multiplies by `π/4`; `sqrtQ` stands for `Math.sqrt`.  Theorems
assume of these only facts true of the real functions on the argument
ranges actually used. -/
structure Trig where
  cosQ : ℚ → ℚ
  sinQ : ℚ → ℚ
  sqrtQ : ℚ → ℚ

/-! ## Ping-pong store: operations -/

/-- `updatePlayerPaddle(y)`: clamp the requested paddle centre to the
canvas. -/
def updatePlayerPaddle (s : PingPongState) (y : ℚ) : PingPongState :=
  { s with
    playerPaddleY := max (s.paddleHeight / 2) (min (s.canvasHeight - s.paddleHeight / 2) y) }

/-- `togglePause`: the source flips `isPaused` unconditionally, with no
guard on `isGameStarted` or `isGameOver`. -/
def togglePause (s : PingPongState) : PingPongState :=
  { s with isPaused := !s.isPaused }

/-- `levelUp`: no-op at the maximum level, otherwise raise the level by
one, the computer speed multiplier by `0.25` and the prediction accuracy
by `0.1` (capped at `0.95`). -/
def levelUp (s : PingPongState) : PingPongState :=
  if s.currentLevel ≥ s.maxLevel then
    s
  else
    { s with
      currentLevel := s.currentLevel + 1,
      computerSpeedMultiplier := s.computerSpeedMultiplier + 1/4,
      predictionAccuracy := min (19/20) (s.predictionAccuracy + 1/10) }

/-- `setDifficultyLevel(level)`: assign the preset speed-multiplier and
prediction-accuracy pair for `level` (falling back to the level-1 preset
for an out-of-range argument, as `difficultySettings[level] ||
difficultySettings[1]` does) and set `currentLevel` to `level`. -/
def setDifficultyLevel (s : PingPongState) (level : ℕ) : PingPongState :=
  let settings : ℚ × ℚ :=
    match level with
    | 1 => (1, 1/2)
    | 2 => (5/4, 3/5)
    | 3 => (3/2, 7/10)
    | 4 => (7/4, 17/20)
    | 5 => (2, 19/20)
    | _ => (1, 1/2)
  { s with
    currentLevel := level,
    computerSpeedMultiplier := settings.1,
    predictionAccuracy := settings.2 }

/-- `scorePoint(player)`: freeze the ball at the canvas centre, credit
the point, level up when the player's new score is a positive multiple
of 3, and end the game when the new score reaches `pointsToWin`.

The source's nested `get().levelUp()` call updates the live store before
the outer closure's partial record (which contains no difficulty fields)
is merged, so its net effect is `levelUp` applied first.  The
`setTimeout(() => get().resetBall(), 1000)` scheduled when the game
continues is a deferred external callback; it is not part of this
transition (`resetBall` is modelled separately). -/
def scorePoint (s : PingPongState) (side : Side) : PingPongState :=
  let ballX := s.canvasWidth / 2
  let ballY := s.canvasHeight / 2
  match side with
  | .player =>
    let playerScore := s.playerScore + 1
    let s1 := if playerScore > 0 ∧ playerScore % 3 = 0 then levelUp s else s
    let gameEnds := playerScore ≥ s.pointsToWin
    { s1 with
      playerScore := playerScore,
      isGameOver := if gameEnds then true else s.isGameOver,
      winner := if gameEnds then some .player else s.winner,
      ballX := ballX, ballY := ballY, ballSpeedX := 0, ballSpeedY := 0 }
  | .computer =>
    let computerScore := s.computerScore + 1
    let gameEnds := computerScore ≥ s.pointsToWin
    { s with
      computerScore := computerScore,
      isGameOver := if gameEnds then true else s.isGameOver,
      winner := if gameEnds then some .computer else s.winner,
      ballX := ballX, ballY := ballY, ballSpeedX := 0, ballSpeedY := 0 }

/-- Whether this `scorePoint` call reaches the win threshold, in which
case the source also calls `powerUps.disablePowerUps()` (used by the
cross-store transition below). -/
def scoreTriggersGameOver (s : PingPongState) (side : Side) : Bool :=
  match side with
  | .player => s.playerScore + 1 ≥ s.pointsToWin
  | .computer => s.computerScore + 1 ≥ s.pointsToWin

/-- `createMainBall`: the main ball rebuilt from the legacy position and
velocity fields. -/
def createMainBall (s : PingPongState) : Ball :=
  ⟨"main-ball", s.ballX, s.ballY, s.ballSpeedX, s.ballSpeedY, true⟩

/-- `resetBall`, with the two `Math.random()` draws made explicit:
`dirSample` decides the horizontal direction, and `angleCos`/`angleSin`
stand for the cosine and sine of the sampled launch angle
`Math.random() * π/4 - π/8`.  The balls array becomes the single main
ball. -/
def resetBall (s : PingPongState) (dirSample angleCos angleSin : ℚ) : PingPongState :=
  let direction : ℚ := if dirSample > 1/2 then 1 else -1
  let newBallX := s.canvasWidth / 2
  let newBallY := s.canvasHeight / 2
  let newBallSpeedX := s.initialBallSpeed * direction * angleCos
  let newBallSpeedY := s.initialBallSpeed * angleSin
  let mainBall : Ball := ⟨"main-ball", newBallX, newBallY, newBallSpeedX, newBallSpeedY, true⟩
  { s with
    ballX := newBallX, ballY := newBallY,
    ballSpeedX := newBallSpeedX, ballSpeedY := newBallSpeedY,
    balls := [mainBall] }

/-- `addExtraBalls(count)`, with the per-ball `Math.random()` draws made
explicit: each element of `specs` is the triple of samples for one extra
ball (direction draw, speed draw, vertical draw), and `now` is the
`Date.now()` used in the generated ids.  The source copies the balls
array, appends the main ball when none is present, then appends `count`
extra balls with `isMainBall: false`. -/
def addExtraBalls (s : PingPongState) (specs : List (ℚ × ℚ × ℚ)) (now : ℕ) :
    PingPongState :=
  let withMain :=
    if (s.balls.find? (fun b => b.isMainBall)).isNone then
      s.balls ++ [createMainBall s]
    else
      s.balls
  let extras := specs.enum.map (fun iv =>
    let r1 : ℚ := iv.2.1
    let r2 : ℚ := iv.2.2.1
    let r3 : ℚ := iv.2.2.2
    ({ id := "extra-ball-" ++ toString now ++ "-" ++ toString iv.1,
       x := s.canvasWidth / 2,
       y := s.canvasHeight / 2,
       speedX := (if r1 > 1/2 then 1 else -1) * (3 + r2 * 4),
       speedY := (r3 - 1/2) * 6,
       isMainBall := false } : Ball))
  { s with balls := withMain ++ extras }

/-- `removeExtraBalls`: keep only the first main ball, rebuilding it from
the legacy fields when none is present. -/
def removeExtraBalls (s : PingPongState) : PingPongState :=
  { s with balls :=
      match s.balls.find? (fun b => b.isMainBall) with
      | some mainBall => [mainBall]
      | none => [createMainBall s] }

/-- `getMainBall`. -/
def getMainBall (s : PingPongState) : Option Ball :=
  s.balls.find? (fun b => b.isMainBall)

/-- `updateBallPositions(ball, ballSpeedMultiplier)`: advance one ball by
one frame and resolve wall and paddle collisions.

The paddle height multipliers the source reads from the power-up store
(`getPlayerPaddleHeightMultiplier` / `getComputerPaddleHeightMultiplier`)
are passed as the `padP` / `padC` parameters.  The two paddle blocks run
in sequence on the mutable `newX`/`newSpeedX`/`newSpeedY` variables, so
the computer-paddle condition tests the x-position the player block may
just have snapped; the wall bounce happens first and only flips
`newSpeedY`.  `t.cosQ n` / `t.sinQ n` stand for the source's
`Math.cos(bounceAngle)` / `Math.sin(bounceAngle)` where
`bounceAngle = n * π/4` and `n` is the normalized intersection. -/
def updateBallPositions (s : PingPongState) (ball : Ball)
    (ballSpeedMultiplier padP padC : ℚ) (t : Trig) : Ball :=
  let newX := ball.x + ball.speedX * ballSpeedMultiplier
  let newY := ball.y + ball.speedY * ballSpeedMultiplier
  let newSpeedX := ball.speedX
  let newSpeedY :=
    if newY - s.ballSize / 2 ≤ 0 ∨ newY + s.ballSize / 2 ≥ s.canvasHeight then
      -ball.speedY
    else
      ball.speedY
  let effectivePlayerPaddleHeight := s.paddleHeight * padP
  let effectiveComputerPaddleHeight := s.paddleHeight * padC
  let afterPlayer : ℚ × ℚ × ℚ :=
    if newX - s.ballSize / 2 ≤ s.paddleWidth ∧
        newY ≥ s.playerPaddleY - effectivePlayerPaddleHeight / 2 ∧
        newY ≤ s.playerPaddleY + effectivePlayerPaddleHeight / 2 then
      let relativeIntersectY := s.playerPaddleY - newY
      let normalizedIntersection := relativeIntersectY / (effectivePlayerPaddleHeight / 2)
      let currentSpeed := t.sqrtQ (newSpeedX * newSpeedX + newSpeedY * newSpeedY)
      let newSpeed := currentSpeed + s.ballSpeedIncrement
      let sx := newSpeed * t.cosQ normalizedIntersection
      let sy := newSpeed * -(t.sinQ normalizedIntersection)
      (s.paddleWidth + s.ballSize / 2, (if sx ≤ 0 then |sx| else sx), sy)
    else
      (newX, newSpeedX, newSpeedY)
  let afterComputer : ℚ × ℚ × ℚ :=
    if afterPlayer.1 + s.ballSize / 2 ≥ s.canvasWidth - s.paddleWidth ∧
        newY ≥ s.computerPaddleY - effectiveComputerPaddleHeight / 2 ∧
        newY ≤ s.computerPaddleY + effectiveComputerPaddleHeight / 2 then
      let relativeIntersectY := s.computerPaddleY - newY
      let normalizedIntersection := relativeIntersectY / (effectiveComputerPaddleHeight / 2)
      let currentSpeed := t.sqrtQ (afterPlayer.2.1 * afterPlayer.2.1 + afterPlayer.2.2 * afterPlayer.2.2)
      let newSpeed := currentSpeed + s.ballSpeedIncrement
      let sx := -newSpeed * t.cosQ normalizedIntersection
      let sy := newSpeed * -(t.sinQ normalizedIntersection)
      (s.canvasWidth - s.paddleWidth - s.ballSize / 2, (if sx ≥ 0 then -|sx| else sx), sy)
    else
      afterPlayer
  { ball with
    x := afterComputer.1,
    y := newY,
    speedX := afterComputer.2.1,
    speedY := afterComputer.2.2 }

/-- JavaScript truthiness test `!state.lastRandomOffset` for the
`number | null` field: true for `null` and for `0`. -/
def jsFalsyNum (v : Option ℚ) : Bool :=
  match v with
  | none => true
  | some q => q == 0

/-- The computer-AI block of `updateGame`: compute the paddle target for
this frame together with the (possibly resampled) `lastRandomOffset`.

`newBallX`/`newBallY`/`newBallSpeedX`/`newBallSpeedY` are the main
ball's legacy-synced position and velocity after this frame's ball
update; `rnd` is the `Math.random()` draw used when the offset is
resampled.  The guard is `state.ballSpeedX > 0` (the pre-frame legacy
velocity): when it fails the target stays at the current paddle
position and the offset is untouched.  When it holds, the trajectory
projection divides by `newBallSpeedX`; the result (plus the random
offset) is clamped to `[paddleHeight/2, canvasHeight - paddleHeight/2]`.

Division in `ℚ` is total with `x / 0 = 0`; in the source a division by
zero would produce `Infinity`, which the same clamp also maps to the
upper bound, so the clamping bounds proved below hold in either
semantics. -/
def computerPaddleTarget (s : PingPongState)
    (newBallX newBallY newBallSpeedX newBallSpeedY rnd : ℚ) : ℚ × Option ℚ :=
  if s.ballSpeedX > 0 then
    let currentAccuracy := s.predictionAccuracy
    let predictedY := newBallY +
      newBallSpeedY * ((s.canvasWidth - newBallX) / newBallSpeedX) * currentAccuracy
    let randomFactor : ℚ :=
      if s.currentLevel = 1 then 30 else max 0 ((1 - currentAccuracy) * 20)
    let newOffset : ℚ :=
      if s.frameCount % 30 = 0 ∨ jsFalsyNum s.lastRandomOffset then
        (if randomFactor > 0 then rnd * randomFactor - randomFactor / 2 else 0)
      else
        s.lastRandomOffset.getD 0
    let target :=
      max (s.paddleHeight / 2)
        (min (s.canvasHeight - s.paddleHeight / 2) (predictedY + newOffset))
    (target, some newOffset)
  else
    (s.computerPaddleY, s.lastRandomOffset)

/-- `updateGame`: one frame of the physics and AI loop, returning the new
store state together with the scoring event it detected (the side the
source passes to `scorePoint` right after the `set` call, if any).

External reads are parameters: `ballSpeedMultiplier`, `padP` and `padC`
are the power-up store's multiplier getters, and `rnd` the `Math.random()`
draw for the AI offset resample.

Two source behaviours reproduced here deserve note:

* The multiball block at the top calls `addExtraBalls` /
  `removeExtraBalls` through nested `set` calls; both build a fresh
  `balls` array, while the outer closure keeps using the `balls` array of
  the state object it captured and finally merges `balls: updatedBalls`
  over the store, overwriting what the nested calls installed.  The net
  state change of that block is therefore empty and it is omitted here.
  The `state.balls.push(state.createMainBall())` fallback for an empty
  array, by contrast, mutates the captured array in place and does feed
  the frame, so it is modelled.
* A ball is removed when its leading edge crosses the left edge, or
  (`else if`) the right edge; only a main ball crossing while the match
  is active (`isGameStarted && !isGameOver && !isPaused`) produces a
  scoring event, the last such ball winning (`scoringPlayer` is
  overwritten).  Removal happens regardless of the active flags. -/
def updateGame (s : PingPongState) (ballSpeedMultiplier padP padC rnd : ℚ)
    (t : Trig) : PingPongState × Option Side :=
  let balls0 := if s.balls.isEmpty then [createMainBall s] else s.balls
  let updatedBalls := balls0.map (fun b => updateBallPositions s b ballSpeedMultiplier padP padC t)
  let mainBall := updatedBalls.find? (fun b => b.isMainBall)
  let newBallX := match mainBall with | some m => m.x | none => s.ballX
  let newBallY := match mainBall with | some m => m.y | none => s.ballY
  let newBallSpeedX := match mainBall with | some m => m.speedX | none => s.ballSpeedX
  let newBallSpeedY := match mainBall with | some m => m.speedY | none => s.ballSpeedY
  let targetAndOffset := computerPaddleTarget s newBallX newBallY newBallSpeedX newBallSpeedY rnd
  let target := targetAndOffset.1
  let computerPaddleSpeed := s.computerBaseSpeed * s.computerSpeedMultiplier
  let distanceToTarget := |target - s.computerPaddleY|
  let deadzone : ℚ := 2
  let newComputerPaddleY :=
    if distanceToTarget > deadzone then
      if target > s.computerPaddleY then
        min target (s.computerPaddleY + computerPaddleSpeed)
      else if target < s.computerPaddleY then
        max target (s.computerPaddleY - computerPaddleSpeed)
      else
        s.computerPaddleY
    else
      s.computerPaddleY
  let active := s.isGameStarted && !s.isGameOver && !s.isPaused
  let events := updatedBalls.filterMap (fun b =>
    if b.x - s.ballSize / 2 ≤ 0 then
      (if b.isMainBall && active then some Side.computer else none)
    else if b.x + s.ballSize / 2 ≥ s.canvasWidth then
      (if b.isMainBall && active then some Side.player else none)
    else
      none)
  let keptBalls := updatedBalls.filter (fun b =>
    !(b.x - s.ballSize / 2 ≤ 0) && !(b.x + s.ballSize / 2 ≥ s.canvasWidth))
  ({ s with
      balls := keptBalls,
      ballX := newBallX, ballY := newBallY,
      ballSpeedX := newBallSpeedX, ballSpeedY := newBallSpeedY,
      computerPaddleY := newComputerPaddleY,
      frameCount := s.frameCount + 1,
      lastRandomOffset := targetAndOffset.2 },
    events.getLast?)

/-- The full frame entry point: `updateGame` followed by the `scorePoint`
call the source makes when the frame detected a scoring event. -/
def updateGameFull (s : PingPongState) (ballSpeedMultiplier padP padC rnd : ℚ)
    (t : Trig) : PingPongState :=
  let r := updateGame s ballSpeedMultiplier padP padC rnd t
  match r.2 with
  | some side => scorePoint r.1 side
  | none => r.1

/-- Combined state of the two stores, for the transitions that touch
both. -/
structure GameState where
  pp : PingPongState
  pu : PowerUpsState
deriving DecidableEq, Repr

/-- `scorePoint` as the cross-store transition: the match store update,
plus the `powerUps.disablePowerUps()` call the source makes when the new
score reaches the win threshold. -/
def scorePointFull (g : GameState) (side : Side) : GameState :=
  { pp := scorePoint g.pp side,
    pu := if scoreTriggersGameOver g.pp side then disablePowerUps g.pu else g.pu }

/-- Number of balls flagged as the main ball. -/
def countMain (balls : List Ball) : ℕ :=
  balls.countP (fun b => b.isMainBall)

/-- The public operations of the match store, with their external inputs
(random draws, power-up reads, trig stand-ins) carried as data, used to
state properties over arbitrary call sequences within one match. -/
inductive Op where
  | updatePlayerPaddle (y : ℚ)
  | togglePause
  | levelUp
  | setDifficultyLevel (level : ℕ)
  | scorePoint (side : Side)
  | resetBall (dirSample angleCos angleSin : ℚ)
  | addExtraBalls (specs : List (ℚ × ℚ × ℚ)) (now : ℕ)
  | removeExtraBalls
  | updateGame (ballSpeedMultiplier padP padC rnd : ℚ) (t : Trig)

/-- Whether an operation is the manual difficulty selector. -/
def Op.isSetDifficultyLevel : Op → Bool
  | .setDifficultyLevel _ => true
  | _ => false

/-- Apply one match-store operation (a frame tick is `updateGameFull`,
the frame update together with the scoring call it triggers). -/
def runOp (op : Op) (s : PingPongState) : PingPongState :=
  match op with
  | .updatePlayerPaddle y => updatePlayerPaddle s y
  | .togglePause => togglePause s
  | .levelUp => levelUp s
  | .setDifficultyLevel level => setDifficultyLevel s level
  | .scorePoint side => scorePoint s side
  | .resetBall d c sn => resetBall s d c sn
  | .addExtraBalls specs now => addExtraBalls s specs now
  | .removeExtraBalls => removeExtraBalls s
  | .updateGame m p c r t => updateGameFull s m p c r t

/-- Apply a sequence of match-store operations, left to right. -/
def runOps (ops : List Op) (s : PingPongState) : PingPongState :=
  ops.foldl (fun s op => runOp op s) s

/-! ## Example states used by concrete witnesses and counterexamples -/

/-- Trig stand-in used for concrete evaluations in which no paddle
collision occurs (the trig values are never consulted there). -/
def trigEx : Trig :=
  ⟨fun _ => 1, fun q => q, fun q => q⟩

/-- A power-up store state with one PADDLE_EXTENDER pickup on the field
and one active effect. -/
def puStateEx : PowerUpsState where
  activePowerUps := [⟨.SPEED_BOOST, 9000, .BALL⟩]
  spawnedPowerUps := [⟨"pu-1", .PADDLE_EXTENDER, 200, 200, 15, "#33FF57"⟩]
  nextSpawnTime := 0
  spawnInterval := 8000
  maxPowerUps := 2
  isPowerUpSpawningEnabled := true

/-- A match state that is neither started nor over nor paused (the store
defaults with empty balls), used to exhibit togglePause's behaviour
outside the running/paused lifecycle. -/
def pauseExampleState : PingPongState :=
  initialPingPongState

/-- A running match state whose main ball moves toward the computer at
the near-zero horizontal speed 1/100 (the rest as in the store
defaults, with a non-falsy stored random offset and a frame count that
does not trigger a resample). -/
def aiExampleState : PingPongState :=
  { initialPingPongState with
    isGameStarted := true,
    ballSpeedX := 1/100,
    ballSpeedY := 1,
    frameCount := 1,
    lastRandomOffset := some 1,
    balls := [⟨"main-ball", 400, 300, 1/100, 1, true⟩] }

/-- A running match state whose main ball moves away from the computer
(`ballSpeedX = -5`), so the AI projection is skipped. -/
def aiHoldExampleState : PingPongState :=
  { initialPingPongState with
    isGameStarted := true,
    ballSpeedX := -5,
    balls := [⟨"main-ball", 400, 300, -5, 0, true⟩] }

/-- A running match state whose main ball is about to cross the right
edge far away from the computer paddle (y = 50 against a paddle centred
at 300), so the frame removes it and credits the player. -/
def exitExampleState : PingPongState :=
  { initialPingPongState with
    isGameStarted := true,
    ballX := 790,
    ballY := 50,
    ballSpeedX := 10,
    ballSpeedY := 0,
    frameCount := 1,
    lastRandomOffset := some 1,
    balls := [⟨"main-ball", 790, 50, 10, 0, true⟩] }

/-- Trig stand-in satisfying the positivity facts assumed of the real
functions (`cos` positive on the bounce-angle range, `sqrt`
nonnegative), used to instantiate hypotheses in witnesses. -/
def trigOne : Trig :=
  ⟨fun _ => 1, fun _ => 0, fun _ => 0⟩

/-- A ball one frame away from the player paddle's face at paddle
centre height. -/
def bounceBallP : Ball :=
  ⟨"main-ball", 25, 300, -5, 0, true⟩

/-- A ball one frame away from the computer paddle's face at paddle
centre height. -/
def bounceBallC : Ball :=
  ⟨"main-ball", 775, 300, 5, 0, true⟩

/-- Combined fresh-match state for the cross-store scoring witness: the
store defaults with the game started. -/
def gameStateEx : GameState :=
  ⟨{ initialPingPongState with isGameStarted := true }, initialPowerUpsState⟩

/-- The state after `n` successive `scorePoint("player")` calls starting
from the store's initial state (difficulty level 1). -/
def scorePlayerN : ℕ → PingPongState
  | 0 => initialPingPongState
  | n + 1 => scorePoint (scorePlayerN n) .player

/-- Five successive player-credited `scorePoint` calls on the combined
state, with no interleaved computer points. -/
def fivePlayerPoints (g : GameState) : GameState :=
  scorePointFull (scorePointFull (scorePointFull (scorePointFull
    (scorePointFull g .player) .player) .player) .player) .player

/-! ## C10: collecting an unknown id -/

/-- C10 (confirmed).  For every id not present in `spawnedPowerUps`,
`collectPowerUp` returns the not-found result `null` and leaves the
store state (in particular both `spawnedPowerUps` and `activePowerUps`)
unchanged.  The embedding is total, matching the source's absence of any
throwing operation on this path. -/
theorem collect_unknown_id_noop (s : PowerUpsState) (id : String)
    (isPlayerCollecting : Bool) (now : ℕ)
    (h : ∀ p ∈ s.spawnedPowerUps, p.id ≠ id) :
    collectPowerUp s id isPlayerCollecting now = (none, s) := by
  have hfind : s.spawnedPowerUps.find? (fun p => p.id == id) = none := by
    rw [List.find?_eq_none]
    intro p hp
    simpa using h p hp
  simp [collectPowerUp, hfind]

/-- Witness for C10 at a concrete store state and unknown id. -/
theorem collect_unknown_id_noop_witness :
    collectPowerUp puStateEx "missing-id" true 5000 = (none, puStateEx) :=
  collect_unknown_id_noop puStateEx "missing-id" true 5000 (by
    intro p hp
    simp only [puStateEx, List.mem_singleton] at hp
    subst hp
    decide)

/-! ## C9: effective-target resolution on collection -/

/-- C9 (confirmed).  `collectPowerUp` resolves the effective target by
collector: when the computer collects (`isPlayerCollecting = false`), a
PLAYER-targeted pickup installs a COMPUTER-targeted effect and a
COMPUTER-targeted pickup installs a PLAYER-targeted effect, while BALL
and GAME pickups keep their configured target for either collector; the
installed entry's expiry is the collection time plus the configured
duration of the pickup's type.  (The installed entry is the one appended
at the end of `activePowerUps`.) -/
theorem collect_effectiveTarget_resolution (s : PowerUpsState) (id : String)
    (isPlayerCollecting : Bool) (now : ℕ) (p : SpawnedPowerUp)
    (hfind : s.spawnedPowerUps.find? (fun q => q.id == id) = some p) :
    ((collectPowerUp s id isPlayerCollecting now).2).activePowerUps.getLast? =
      some ⟨p.type, now + (powerUpConfigs p.type).duration,
        if isPlayerCollecting then (powerUpConfigs p.type).target
        else match (powerUpConfigs p.type).target with
          | .PLAYER => .COMPUTER
          | .COMPUTER => .PLAYER
          | other => other⟩ := by
  simp [collectPowerUp, hfind, List.getLast?_concat]

/-- Witness for C9: the computer collects a PLAYER-targeted
PADDLE_EXTENDER pickup at time 1000; the installed effect targets the
COMPUTER and expires at 1000 + 8000. -/
theorem collect_effectiveTarget_resolution_witness :
    ((collectPowerUp puStateEx "pu-1" false 1000).2).activePowerUps.getLast? =
      some ⟨.PADDLE_EXTENDER, 9000, .COMPUTER⟩ :=
  collect_effectiveTarget_resolution puStateEx "pu-1" false 1000
    ⟨"pu-1", .PADDLE_EXTENDER, 200, 200, 15, "#33FF57"⟩ rfl

/-! ## C6: at most one active effect per (type, target) pair -/

/-- Helper: collecting preserves pairwise distinctness of the
`(type, target)` pairs of the active effects. -/
theorem pairAtMostOnce_collect (s : PowerUpsState) (id : String)
    (byPlayer : Bool) (now : ℕ) (h : pairAtMostOnce s.activePowerUps) :
    pairAtMostOnce ((collectPowerUp s id byPlayer now).2).activePowerUps := by
  unfold collectPowerUp
  cases hfind : s.spawnedPowerUps.find? (fun p => p.id == id) with
  | none => exact h
  | some collected =>
    simp only [pairAtMostOnce, List.pairwise_append]
    refine ⟨h.filter _, List.pairwise_singleton _ _, ?_⟩
    intro a ha b hb
    simp only [List.mem_singleton] at hb
    subst hb
    rcases List.mem_filter.mp ha with ⟨-, hcond⟩
    intro hpair
    rw [hpair.1, hpair.2] at hcond
    simp at hcond

/-- Helper: the expiry sweep preserves pairwise distinctness. -/
theorem pairAtMostOnce_sweep (s : PowerUpsState) (now : ℕ)
    (h : pairAtMostOnce s.activePowerUps) :
    pairAtMostOnce (checkExpiredPowerUps s now).activePowerUps :=
  h.filter _

/-- C6 (confirmed).  After any sequence of power-up store operations
(collections, expiry sweeps, enable, disable) starting from a state
whose active list has pairwise-distinct `(type, target)` pairs — in
particular from the initial empty list — the active list still has at
most one entry per `(type, target)` pair: a collection for a pair
already present replaces the entry instead of adding a second one. -/
theorem activeEffects_pairAtMostOnce (ops : List PUOp) (s : PowerUpsState)
    (h : pairAtMostOnce s.activePowerUps) :
    pairAtMostOnce (runPUOps ops s).activePowerUps := by
  induction ops generalizing s with
  | nil => exact h
  | cons op ops ih =>
    refine ih (runPUOp op s) ?_
    cases op with
    | collect id byPlayer now => exact pairAtMostOnce_collect s id byPlayer now h
    | sweep now => exact pairAtMostOnce_sweep s now h
    | enable => exact h
    | disable => exact List.Pairwise.nil

/-- Witness for C6: two collections of the same pickup type for the same
target on a concrete store, starting from an empty active list. -/
theorem activeEffects_pairAtMostOnce_witness :
    pairAtMostOnce (runPUOps [PUOp.collect "pu-1" false 1000, PUOp.sweep 2000]
      { puStateEx with activePowerUps := [] }).activePowerUps :=
  activeEffects_pairAtMostOnce [PUOp.collect "pu-1" false 1000, PUOp.sweep 2000]
    { puStateEx with activePowerUps := [] } (by simp [pairAtMostOnce])

/-! ## C2: togglePause -/

/-- C2 counterexample.  The claim says `togglePause` leaves the state
unchanged when the game is not started; in the source `togglePause` is
`set((state) => ({ isPaused: !state.isPaused }))` with no lifecycle
guard, so on the initial (not started, not over) state it flips
`isPaused` from `false` to `true` and the state does change. -/
theorem togglePause_guard_counterexample :
    pauseExampleState.isGameStarted = false ∧
    pauseExampleState.isGameOver = false ∧
    pauseExampleState.isPaused = false ∧
    (togglePause pauseExampleState).isPaused = true := by
  refine ⟨rfl, rfl, rfl, ?_⟩
  simp [togglePause, pauseExampleState, initialPingPongState]

/-- C2 as amended (proved).  `togglePause` flips `isPaused` in every
state — also when the game is not started or is already over — and
changes nothing else (lifecycle flags, winner, scores, balls, positions
and difficulty are all untouched).  While running or paused this is
exactly the flip between the two lifecycle states; the guard the claim
describes ("no effect unless running or paused") is not present in the
source. -/
theorem togglePause_always_flips (s : PingPongState) :
    (togglePause s).isPaused = !s.isPaused ∧
    (togglePause s).isGameStarted = s.isGameStarted ∧
    (togglePause s).isGameOver = s.isGameOver ∧
    (togglePause s).winner = s.winner ∧
    (togglePause s).playerScore = s.playerScore ∧
    (togglePause s).computerScore = s.computerScore ∧
    (togglePause s).balls = s.balls ∧
    (togglePause s).ballX = s.ballX ∧
    (togglePause s).ballY = s.ballY ∧
    (togglePause s).ballSpeedX = s.ballSpeedX ∧
    (togglePause s).ballSpeedY = s.ballSpeedY ∧
    (togglePause s).playerPaddleY = s.playerPaddleY ∧
    (togglePause s).computerPaddleY = s.computerPaddleY ∧
    (togglePause s).currentLevel = s.currentLevel := by
  refine ⟨?_, ?_, ?_, ?_, ?_, ?_, ?_, ?_, ?_, ?_, ?_, ?_, ?_, ?_⟩ <;> rfl

/-! ## C3: difficulty-level monotonicity -/

/-- C3 counterexample.  The claim includes `setDifficultyLevel` among the
operations under which `currentLevel` never decreases; in the source
`setDifficultyLevel(level)` assigns `currentLevel := level` directly, so
selecting level 1 after level 3 decreases it mid-match with no restart
involved. -/
theorem currentLevel_decrease_counterexample :
    (setDifficultyLevel initialPingPongState 3).currentLevel = 3 ∧
    (setDifficultyLevel (setDifficultyLevel initialPingPongState 3) 1).currentLevel = 1 := by
  constructor <;> rfl

/-- Helper: one non-`setDifficultyLevel` operation never decreases
`currentLevel`. -/
theorem currentLevel_mono_runOp (op : Op) (s : PingPongState)
    (hop : op.isSetDifficultyLevel = false) :
    s.currentLevel ≤ (runOp op s).currentLevel := by
  cases op with
  | updatePlayerPaddle y => exact le_refl _
  | togglePause => exact le_refl _
  | levelUp =>
    simp only [runOp, levelUp]
    split
    · exact le_refl _
    · exact Nat.le_succ _
  | setDifficultyLevel level => simp [Op.isSetDifficultyLevel] at hop
  | scorePoint side =>
    cases side with
    | player =>
      simp only [runOp, scorePoint, levelUp]
      split
      · split <;> simp
      · exact le_refl _
    | computer => exact le_refl _
  | resetBall d c sn => exact le_refl _
  | addExtraBalls specs now => exact le_refl _
  | removeExtraBalls => exact le_refl _
  | updateGame m p c r t =>
    have hlvl : ((updateGame s m p c r t).1).currentLevel = s.currentLevel := rfl
    simp only [runOp, updateGameFull]
    cases (updateGame s m p c r t).2 with
    | none => exact hlvl.ge
    | some side =>
      cases side with
      | player =>
        simp only [scorePoint, levelUp]
        split
        · split <;> simp [hlvl]
        · simp [hlvl]
      | computer => exact hlvl.ge

/-- C3 as amended (proved).  Within a single match (no `restartGame`),
`currentLevel` never decreases under any sequence of the public match
operations — frame updates (with the scoring they trigger), manual
`scorePoint`, `levelUp`, pause toggles, paddle input, ball resets and
multiball bookkeeping — with the exception of `setDifficultyLevel`,
which assigns the chosen level directly and can therefore lower it (see
the counterexample); the claim's inclusion of `setDifficultyLevel` in
the monotone set is what fails. -/
theorem currentLevel_monotone_without_manual_select (ops : List Op)
    (s : PingPongState) (hops : ∀ op ∈ ops, op.isSetDifficultyLevel = false) :
    s.currentLevel ≤ (runOps ops s).currentLevel := by
  induction ops generalizing s with
  | nil => exact le_refl _
  | cons op ops ih =>
    have h1 : s.currentLevel ≤ (runOp op s).currentLevel :=
      currentLevel_mono_runOp op s (hops op (List.mem_cons_self op ops))
    have h2 : (runOp op s).currentLevel ≤ (runOps ops (runOp op s)).currentLevel :=
      ih (runOp op s) (fun o ho => hops o (List.mem_cons_of_mem op ho))
    exact le_trans h1 h2

/-- Witness for C3 (amended): a concrete sequence of level-ups and
scoring on the initial state never lowers the level. -/
theorem currentLevel_monotone_witness :
    initialPingPongState.currentLevel ≤
      (runOps [Op.levelUp, Op.togglePause, Op.scorePoint Side.player]
        initialPingPongState).currentLevel :=
  currentLevel_monotone_without_manual_select
    [Op.levelUp, Op.togglePause, Op.scorePoint Side.player]
    initialPingPongState (by
      intro op hop
      rcases List.mem_cons.mp hop with h | hop
      · subst h; rfl
      rcases List.mem_cons.mp hop with h | hop
      · subst h; rfl
      rcases List.mem_cons.mp hop with h | hop
      · subst h; rfl
      · simp at hop)

/-! ## C4: AI trajectory projection and near-zero horizontal speed -/

/-- C4 counterexample.  The claim says that for a near-zero horizontal
main-ball speed the projection is skipped and the previous paddle target
is held.  The source's only guard is `state.ballSpeedX > 0`: with the
near-zero positive speed 1/100 the projection still runs (dividing by
1/100), and the resulting target is the upper clamp bound 550 rather
than the held paddle position 300. -/
theorem aiProjection_near_zero_counterexample :
    aiExampleState.ballSpeedX = 1/100 ∧
    aiExampleState.computerPaddleY = 300 ∧
    (computerPaddleTarget aiExampleState 400 300 (1/100) 1 0).1 = 550 ∧
    (computerPaddleTarget aiExampleState 400 300 (1/100) 1 0).1 ≠
      aiExampleState.computerPaddleY := by
  refine ⟨rfl, rfl, ?_, ?_⟩ <;>
    norm_num [computerPaddleTarget, aiExampleState, initialPingPongState, jsFalsyNum]

/-- C4 as amended (proved).  The projection block is guarded by
`ballSpeedX > 0` only: when the stored horizontal speed is zero or
negative (in particular exactly zero) the projection is skipped and the
target stays at the current computer-paddle position, but for any
positive speed — however close to zero — the projection runs.  The
division cannot fault (it is total), and the target it produces is
always confined to the clamp interval from `paddleHeight / 2` to
`canvasHeight - paddleHeight / 2`, so even a vanishing divisor never
produces an unbounded paddle target. -/
theorem aiTarget_guard_and_clamp (s : PingPongState) (nx ny nsx nsy rnd : ℚ) :
    (s.ballSpeedX ≤ 0 → (computerPaddleTarget s nx ny nsx nsy rnd).1 = s.computerPaddleY) ∧
    (0 < s.ballSpeedX →
      s.paddleHeight / 2 ≤ (computerPaddleTarget s nx ny nsx nsy rnd).1 ∧
      (computerPaddleTarget s nx ny nsx nsy rnd).1 ≤
        max (s.paddleHeight / 2) (s.canvasHeight - s.paddleHeight / 2)) := by
  constructor
  · intro h
    unfold computerPaddleTarget
    rw [if_neg (not_lt.mpr h)]
  · intro hpos
    unfold computerPaddleTarget
    rw [if_pos hpos]
    refine ⟨le_max_left _ _, ?_⟩
    exact max_le (le_max_left _ _) (le_trans (min_le_left _ _) (le_max_right _ _))

/-- Witness for C4 (amended): at `ballSpeedX = -5` the target is the
held paddle position; at `ballSpeedX = 1/100` the target obeys the
clamp bounds. -/
theorem aiTarget_guard_and_clamp_witness :
    (computerPaddleTarget aiHoldExampleState 400 300 (-5) 0 0).1 =
      aiHoldExampleState.computerPaddleY ∧
    aiExampleState.paddleHeight / 2 ≤
      (computerPaddleTarget aiExampleState 400 300 (1/100) 1 0).1 ∧
    (computerPaddleTarget aiExampleState 400 300 (1/100) 1 0).1 ≤
      max (aiExampleState.paddleHeight / 2)
        (aiExampleState.canvasHeight - aiExampleState.paddleHeight / 2) :=
  ⟨(aiTarget_guard_and_clamp aiHoldExampleState 400 300 (-5) 0 0).1 (by
      norm_num [aiHoldExampleState, initialPingPongState]),
   (aiTarget_guard_and_clamp aiExampleState 400 300 (1/100) 1 0).2 (by
      norm_num [aiExampleState, initialPingPongState])⟩

/-! ## C7: difficulty progression via player scoring -/

/-- Helper: `levelUp` does not change `maxLevel`. -/
theorem levelUp_maxLevel (s : PingPongState) : (levelUp s).maxLevel = s.maxLevel := by
  unfold levelUp
  split <;> rfl

/-- Helper: `scorePoint` does not change `maxLevel`. -/
theorem scorePoint_maxLevel (s : PingPongState) (side : Side) :
    (scorePoint s side).maxLevel = s.maxLevel := by
  cases side with
  | player =>
    simp only [scorePoint]
    split
    · exact levelUp_maxLevel s
    · rfl
  | computer => rfl

/-- Helper: `levelUp` keeps the level at or below a maximum of 5. -/
theorem levelUp_currentLevel_le (s : PingPongState) (h5 : s.maxLevel = 5)
    (h : s.currentLevel ≤ 5) : (levelUp s).currentLevel ≤ 5 := by
  unfold levelUp
  split
  · exact h
  · rename_i hlt
    rw [h5] at hlt
    simp only
    omega

/-- Helper: `scorePoint` keeps the level at or below a maximum of 5. -/
theorem scorePoint_currentLevel_le (s : PingPongState) (side : Side)
    (h5 : s.maxLevel = 5) (h : s.currentLevel ≤ 5) :
    (scorePoint s side).currentLevel ≤ 5 := by
  cases side with
  | player =>
    simp only [scorePoint]
    split
    · exact levelUp_currentLevel_le s h5 h
    · exact h
  | computer => exact h

/-- Helper: `maxLevel` stays 5 along the scoring sequence. -/
theorem scorePlayerN_maxLevel (n : ℕ) : (scorePlayerN n).maxLevel = 5 := by
  induction n with
  | zero => rfl
  | succ n ih => rw [scorePlayerN, scorePoint_maxLevel]; exact ih

/-- C7 (confirmed).  Starting at difficulty level 1 (the store's initial
state), successive `scorePoint("player")` calls raise the level exactly
at the positive multiples of 3 of the player's score: the level is 2
after score 3, 3 after score 6 and 4 after score 9, and it never exceeds
the maximum level 5 at any point of the sequence. -/
theorem difficulty_progression_thresholds :
    (scorePlayerN 3).currentLevel = 2 ∧
    (scorePlayerN 6).currentLevel = 3 ∧
    (scorePlayerN 9).currentLevel = 4 ∧
    ∀ n, (scorePlayerN n).currentLevel ≤ 5 := by
  refine ⟨?_, ?_, ?_, ?_⟩
  · show (scorePoint (scorePoint (scorePoint initialPingPongState .player)
      .player) .player).currentLevel = 2
    norm_num [scorePoint, levelUp, initialPingPongState]
  · show (scorePoint (scorePoint (scorePoint (scorePoint (scorePoint (scorePoint
      initialPingPongState .player) .player) .player) .player) .player)
      .player).currentLevel = 3
    norm_num [scorePoint, levelUp, initialPingPongState]
  · show (scorePoint (scorePoint (scorePoint (scorePoint (scorePoint (scorePoint
      (scorePoint (scorePoint (scorePoint initialPingPongState .player) .player)
      .player) .player) .player) .player) .player) .player) .player).currentLevel = 4
    norm_num [scorePoint, levelUp, initialPingPongState]
  · intro n
    induction n with
    | zero => norm_num [scorePlayerN, initialPingPongState]
    | succ n ih =>
      rw [scorePlayerN]
      exact scorePoint_currentLevel_le (scorePlayerN n) .player (scorePlayerN_maxLevel n) ih

/-! ## C8: five player points win the match and disable power-ups -/

/-- Helper: `levelUp` does not change `pointsToWin`. -/
theorem levelUp_pointsToWin (s : PingPongState) :
    (levelUp s).pointsToWin = s.pointsToWin := by
  unfold levelUp
  split <;> rfl

/-- Helper: a player point increments the player score. -/
theorem scorePoint_player_playerScore (s : PingPongState) :
    (scorePoint s .player).playerScore = s.playerScore + 1 := rfl

/-- Helper: scoring does not change `pointsToWin`. -/
theorem scorePoint_player_pointsToWin (s : PingPongState) :
    (scorePoint s .player).pointsToWin = s.pointsToWin := by
  simp only [scorePoint]
  split
  · exact levelUp_pointsToWin s
  · rfl

/-- Helper: the winner after a player point. -/
theorem scorePoint_player_winner (s : PingPongState) :
    (scorePoint s .player).winner =
      if s.playerScore + 1 ≥ s.pointsToWin then some Side.player else s.winner := rfl

/-- Helper: the game-over flag after a player point. -/
theorem scorePoint_player_isGameOver (s : PingPongState) :
    (scorePoint s .player).isGameOver =
      if s.playerScore + 1 ≥ s.pointsToWin then true else s.isGameOver := rfl

/-- C8 (confirmed).  With `pointsToWin = 5`, starting from a fresh match
(scores 0-0, game not over), five `scorePoint("player")` calls with no
interleaved computer points end with `winner = player` and
`isGameOver = true`, and the final point disables the power-up engine:
spawning is off and both the spawned pickups and the active effects are
cleared. -/
theorem fivePoints_playerWins (g : GameState)
    (hps : g.pp.playerScore = 0) (hcs : g.pp.computerScore = 0)
    (hover : g.pp.isGameOver = false) (hptw : g.pp.pointsToWin = 5) :
    (fivePlayerPoints g).pp.winner = some Side.player ∧
    (fivePlayerPoints g).pp.isGameOver = true ∧
    (fivePlayerPoints g).pu.isPowerUpSpawningEnabled = false ∧
    (fivePlayerPoints g).pu.spawnedPowerUps = [] ∧
    (fivePlayerPoints g).pu.activePowerUps = [] := by
  unfold fivePlayerPoints
  set g1 := scorePointFull g .player with hg1
  set g2 := scorePointFull g1 .player with hg2
  set g3 := scorePointFull g2 .player with hg3
  set g4 := scorePointFull g3 .player with hg4
  have e1 : g1.pp = scorePoint g.pp .player := rfl
  have e2 : g2.pp = scorePoint g1.pp .player := rfl
  have e3 : g3.pp = scorePoint g2.pp .player := rfl
  have e4 : g4.pp = scorePoint g3.pp .player := rfl
  have h1 : g1.pp.playerScore = 1 := by rw [e1, scorePoint_player_playerScore, hps]
  have h2 : g2.pp.playerScore = 2 := by rw [e2, scorePoint_player_playerScore, h1]
  have h3 : g3.pp.playerScore = 3 := by rw [e3, scorePoint_player_playerScore, h2]
  have h4 : g4.pp.playerScore = 4 := by rw [e4, scorePoint_player_playerScore, h3]
  have p1 : g1.pp.pointsToWin = 5 := by rw [e1, scorePoint_player_pointsToWin, hptw]
  have p2 : g2.pp.pointsToWin = 5 := by rw [e2, scorePoint_player_pointsToWin, p1]
  have p3 : g3.pp.pointsToWin = 5 := by rw [e3, scorePoint_player_pointsToWin, p2]
  have p4 : g4.pp.pointsToWin = 5 := by rw [e4, scorePoint_player_pointsToWin, p3]
  have htrig : scoreTriggersGameOver g4.pp .player = true := by
    simp [scoreTriggersGameOver, h4, p4]
  have hpp5 : (scorePointFull g4 .player).pp = scorePoint g4.pp .player := rfl
  have hpu5 : (scorePointFull g4 .player).pu = disablePowerUps g4.pu := by
    simp [scorePointFull, htrig]
  refine ⟨?_, ?_, ?_, ?_, ?_⟩
  · rw [hpp5, scorePoint_player_winner, h4, p4]
    norm_num
  · rw [hpp5, scorePoint_player_isGameOver, h4, p4]
    norm_num
  · rw [hpu5]
    rfl
  · rw [hpu5]
    rfl
  · rw [hpu5]
    rfl

/-- Witness for C8 on the concrete fresh combined state. -/
theorem fivePoints_playerWins_witness :
    (fivePlayerPoints gameStateEx).pp.winner = some Side.player ∧
    (fivePlayerPoints gameStateEx).pp.isGameOver = true ∧
    (fivePlayerPoints gameStateEx).pu.isPowerUpSpawningEnabled = false ∧
    (fivePlayerPoints gameStateEx).pu.spawnedPowerUps = [] ∧
    (fivePlayerPoints gameStateEx).pu.activePowerUps = [] :=
  fivePoints_playerWins gameStateEx rfl rfl rfl rfl

/-! ## C5: paddle collisions send the ball away from the paddle -/

/-- C5 (confirmed).  For any ball whose integrated position this frame
satisfies a paddle's collision condition (leading edge past the paddle's
x-plane and vertical position inside the paddle's effective height
window), the per-ball update leaves the ball with a horizontal velocity
pointing strictly away from that paddle: positive after a player-paddle
(left) hit, negative after a computer-paddle (right) hit.

The trig hypotheses are facts of the real functions: `sqrt ≥ 0`
everywhere, and `cos` positive on bounce angles `n·π/4` for a normalized
intersection `n ∈ [-1, 1]` (the window hypotheses put `n` in that
range); the effective paddle height is positive, and the speed increment
is positive (it is `0.2` in the store).  For the player case the
geometry hypothesis `2·paddleWidth + ballSize < canvasWidth` rules out
the snapped position also triggering the right paddle in the same call;
for the computer case the ball is required not to satisfy the left
paddle's x-condition, which the source checks first on the same mutable
position. -/
theorem paddleBounce_outward_signs (s : PingPongState) (ball : Ball)
    (m padP padC : ℚ) (t : Trig)
    (hsqrt : ∀ q, 0 ≤ t.sqrtQ q)
    (hcos : ∀ q, -1 ≤ q → q ≤ 1 → 0 < t.cosQ q)
    (hinc : 0 < s.ballSpeedIncrement) :
    ((ball.x + ball.speedX * m - s.ballSize / 2 ≤ s.paddleWidth ∧
        ball.y + ball.speedY * m ≥ s.playerPaddleY - s.paddleHeight * padP / 2 ∧
        ball.y + ball.speedY * m ≤ s.playerPaddleY + s.paddleHeight * padP / 2) →
      0 < s.paddleHeight * padP →
      s.paddleWidth + s.ballSize / 2 + s.ballSize / 2 < s.canvasWidth - s.paddleWidth →
      0 < (updateBallPositions s ball m padP padC t).speedX) ∧
    (¬(ball.x + ball.speedX * m - s.ballSize / 2 ≤ s.paddleWidth) →
      (ball.x + ball.speedX * m + s.ballSize / 2 ≥ s.canvasWidth - s.paddleWidth ∧
        ball.y + ball.speedY * m ≥ s.computerPaddleY - s.paddleHeight * padC / 2 ∧
        ball.y + ball.speedY * m ≤ s.computerPaddleY + s.paddleHeight * padC / 2) →
      0 < s.paddleHeight * padC →
      (updateBallPositions s ball m padP padC t).speedX < 0) := by
  constructor
  · rintro ⟨hx, hlo, hhi⟩ heff hdim
    have hhalf : 0 < s.paddleHeight * padP / 2 := by positivity
    have hn2 : (s.playerPaddleY - (ball.y + ball.speedY * m)) /
        (s.paddleHeight * padP / 2) ≤ 1 :=
      (div_le_one hhalf).mpr (by linarith)
    have hn1 : (-1 : ℚ) ≤ (s.playerPaddleY - (ball.y + ball.speedY * m)) /
        (s.paddleHeight * padP / 2) :=
      (le_div_iff hhalf).mpr (by linarith)
    have hP : ball.x + ball.speedX * m - s.ballSize / 2 ≤ s.paddleWidth ∧
        ball.y + ball.speedY * m ≥ s.playerPaddleY - s.paddleHeight * padP / 2 ∧
        ball.y + ball.speedY * m ≤ s.playerPaddleY + s.paddleHeight * padP / 2 :=
      ⟨hx, hlo, hhi⟩
    have hCn : ¬(s.paddleWidth + s.ballSize / 2 + s.ballSize / 2 ≥
          s.canvasWidth - s.paddleWidth ∧
        ball.y + ball.speedY * m ≥ s.computerPaddleY - s.paddleHeight * padC / 2 ∧
        ball.y + ball.speedY * m ≤ s.computerPaddleY + s.paddleHeight * padC / 2) :=
      fun hc => absurd hc.1 (not_le.mpr hdim)
    simp only [updateBallPositions]
    rw [if_pos hP]
    dsimp only
    rw [if_neg hCn]
    dsimp only
    split <;> split <;> rename_i hw hsign
    all_goals first
      | exact not_le.mp hsign
      | exact absurd (mul_pos (add_pos_of_nonneg_of_pos (hsqrt _) hinc) (hcos _ hn1 hn2))
          (not_lt.mpr hsign)
  · rintro hnx ⟨hcx, hclo, hchi⟩ heff
    have hhalf : 0 < s.paddleHeight * padC / 2 := by positivity
    have hn2 : (s.computerPaddleY - (ball.y + ball.speedY * m)) /
        (s.paddleHeight * padC / 2) ≤ 1 :=
      (div_le_one hhalf).mpr (by linarith)
    have hn1 : (-1 : ℚ) ≤ (s.computerPaddleY - (ball.y + ball.speedY * m)) /
        (s.paddleHeight * padC / 2) :=
      (le_div_iff hhalf).mpr (by linarith)
    have hPn : ¬(ball.x + ball.speedX * m - s.ballSize / 2 ≤ s.paddleWidth ∧
        ball.y + ball.speedY * m ≥ s.playerPaddleY - s.paddleHeight * padP / 2 ∧
        ball.y + ball.speedY * m ≤ s.playerPaddleY + s.paddleHeight * padP / 2) :=
      fun hc => hnx hc.1
    have hC : ball.x + ball.speedX * m + s.ballSize / 2 ≥ s.canvasWidth - s.paddleWidth ∧
        ball.y + ball.speedY * m ≥ s.computerPaddleY - s.paddleHeight * padC / 2 ∧
        ball.y + ball.speedY * m ≤ s.computerPaddleY + s.paddleHeight * padC / 2 :=
      ⟨hcx, hclo, hchi⟩
    simp only [updateBallPositions]
    rw [if_neg hPn]
    dsimp only
    rw [if_pos hC]
    dsimp only
    have hneg : ∀ q1 q2 : ℚ, 0 ≤ q1 → (0 < q2) → -(q1 + s.ballSpeedIncrement) * q2 < 0 :=
      fun q1 q2 hq1 hq2 => by
        rw [neg_mul]
        exact neg_lt_zero.mpr (mul_pos (add_pos_of_nonneg_of_pos hq1 hinc) hq2)
    split <;> split <;> rename_i hw hsign
    all_goals first
      | exact absurd (hneg _ _ (hsqrt _) (hcos _ hn1 hn2)) (not_lt.mpr hsign)
      | exact hneg _ _ (hsqrt _) (hcos _ hn1 hn2)

/-- Witness for C5: on the default geometry, a ball reaching the player
paddle's face at its centre leaves with positive horizontal speed, and a
ball reaching the computer paddle's face leaves with negative horizontal
speed. -/
theorem paddleBounce_outward_signs_witness :
    0 < (updateBallPositions initialPingPongState bounceBallP 1 1 1 trigOne).speedX ∧
    (updateBallPositions initialPingPongState bounceBallC 1 1 1 trigOne).speedX < 0 := by
  have h := paddleBounce_outward_signs initialPingPongState bounceBallP 1 1 1 trigOne
    (fun q => by norm_num [trigOne]) (fun q h1 h2 => by norm_num [trigOne])
    (by norm_num [initialPingPongState])
  have h2 := paddleBounce_outward_signs initialPingPongState bounceBallC 1 1 1 trigOne
    (fun q => by norm_num [trigOne]) (fun q h1 h2 => by norm_num [trigOne])
    (by norm_num [initialPingPongState])
  refine ⟨h.1 ?_ ?_ ?_, h2.2 ?_ ?_ ?_⟩ <;>
    norm_num [initialPingPongState, bounceBallP, bounceBallC]

/-! ## C1: the main-ball flag across the public operations -/

/-- Helper: the per-ball physics update never changes the main-ball
flag. -/
theorem updateBallPositions_isMainBall (s : PingPongState) (b : Ball)
    (m padP padC : ℚ) (t : Trig) :
    (updateBallPositions s b m padP padC t).isMainBall = b.isMainBall := rfl

/-- Helper: mapping the per-ball update over a list preserves the number
of main balls. -/
theorem countMain_map_update (s : PingPongState) (l : List Ball)
    (m padP padC : ℚ) (t : Trig) :
    countMain (l.map (fun b => updateBallPositions s b m padP padC t)) = countMain l := by
  induction l with
  | nil => rfl
  | cons b l ih =>
    simp only [countMain, List.map_cons, List.countP_cons,
      updateBallPositions_isMainBall] at ih ⊢
    omega

/-- Helper: filtering a ball list cannot increase the number of main
balls. -/
theorem countMain_filter_le (l : List Ball) (q : Ball → Bool) :
    countMain (l.filter q) ≤ countMain l :=
  List.Sublist.countP_le _ (List.filter_sublist l)

/-- Helper: `levelUp` does not touch the balls array. -/
theorem levelUp_balls (s : PingPongState) : (levelUp s).balls = s.balls := by
  unfold levelUp
  split <;> rfl

/-- Helper: `scorePoint` does not touch the balls array (the source only
rewrites scores, flags and the legacy ball fields; the deferred
`resetBall` is a separate operation). -/
theorem scorePoint_balls (s : PingPongState) (side : Side) :
    (scorePoint s side).balls = s.balls := by
  cases side with
  | player =>
    simp only [scorePoint]
    split
    · exact levelUp_balls s
    · rfl
  | computer => rfl

/-- Helper: the balls array produced by one frame, as the source
computes it: the captured array (with the main ball pushed when it was
empty), mapped through the per-ball update, then stripped of the balls
that crossed the left or right edge. -/
theorem updateGame_balls (s : PingPongState) (m padP padC rnd : ℚ) (t : Trig) :
    (updateGame s m padP padC rnd t).1.balls =
      ((if s.balls.isEmpty then [createMainBall s] else s.balls).map
        (fun b => updateBallPositions s b m padP padC t)).filter
        (fun b => !(b.x - s.ballSize / 2 ≤ 0) && !(b.x + s.ballSize / 2 ≥ s.canvasWidth)) := rfl

/-- Helper: the captured pre-frame array has at most one main ball when
the state did. -/
theorem countMain_balls0_le (s : PingPongState) (h : countMain s.balls ≤ 1) :
    countMain (if s.balls.isEmpty then [createMainBall s] else s.balls) ≤ 1 := by
  split
  · norm_num [countMain, createMainBall, List.countP_cons]
  · exact h

/-- Helper: a full frame (update plus triggered scoring) preserves the
at-most-one-main-ball bound. -/
theorem countMain_updateGameFull_le (s : PingPongState) (m padP padC rnd : ℚ)
    (t : Trig) (h : countMain s.balls ≤ 1) :
    countMain (updateGameFull s m padP padC rnd t).balls ≤ 1 := by
  have hballs : countMain (updateGame s m padP padC rnd t).1.balls ≤ 1 := by
    rw [updateGame_balls]
    refine le_trans (countMain_filter_le _ _) ?_
    rw [countMain_map_update]
    exact countMain_balls0_le s h
  simp only [updateGameFull]
  split
  · rw [scorePoint_balls]
    exact hballs
  · exact hballs

/-- Helper: `resetBall` leaves exactly the one main ball. -/
theorem countMain_resetBall (s : PingPongState) (d c sn : ℚ) :
    countMain (resetBall s d c sn).balls = 1 := by
  norm_num [resetBall, countMain, List.countP_cons]

/-- Helper: `addExtraBalls` tops the array up to exactly one main ball
(from an at-most-one state): the main ball is appended when missing, and
every extra ball carries `isMainBall = false`. -/
theorem countMain_addExtraBalls (s : PingPongState) (specs : List (ℚ × ℚ × ℚ))
    (now : ℕ) (h : countMain s.balls ≤ 1) :
    countMain (addExtraBalls s specs now).balls = 1 := by
  simp only [countMain] at h
  unfold addExtraBalls countMain
  rw [List.countP_append]
  have hex : List.countP (fun b => b.isMainBall) (specs.enum.map (fun iv =>
      let r1 : ℚ := iv.2.1
      let r2 : ℚ := iv.2.2.1
      let r3 : ℚ := iv.2.2.2
      ({ id := "extra-ball-" ++ toString now ++ "-" ++ toString iv.1,
         x := s.canvasWidth / 2,
         y := s.canvasHeight / 2,
         speedX := (if r1 > 1/2 then 1 else -1) * (3 + r2 * 4),
         speedY := (r3 - 1/2) * 6,
         isMainBall := false } : Ball))) = 0 := by
    rw [List.countP_eq_zero]
    intro b hb
    rcases List.mem_map.mp hb with ⟨iv, -, rfl⟩
    simp
  rw [hex]
  split
  · rename_i hnone
    have h0 : List.countP (fun b => b.isMainBall) s.balls = 0 := by
      rw [List.countP_eq_zero]
      intro b hb
      have := List.find?_eq_none.mp (Option.isNone_iff_eq_none.mp hnone) b hb
      simpa using this
    rw [List.countP_append, h0]
    norm_num [createMainBall, List.countP_cons]
  · rename_i hsome
    have hpos : 0 < List.countP (fun b => b.isMainBall) s.balls := by
      rw [List.countP_pos]
      cases hf : s.balls.find? (fun b => b.isMainBall) with
      | none => rw [hf] at hsome; simp at hsome
      | some m => exact ⟨m, List.mem_of_find?_eq_some hf, by simpa using List.find?_some hf⟩
    omega

/-- Helper: `removeExtraBalls` always leaves exactly one main ball (the
first one found, or a rebuilt one). -/
theorem countMain_removeExtraBalls (s : PingPongState) :
    countMain (removeExtraBalls s).balls = 1 := by
  unfold removeExtraBalls countMain
  cases hf : s.balls.find? (fun b => b.isMainBall) with
  | none => norm_num [createMainBall, List.countP_cons]
  | some m =>
    have hm : m.isMainBall = true := by simpa using List.find?_some hf
    norm_num [List.countP_cons, hm]

/-- Helper: every public operation preserves the at-most-one-main-ball
bound. -/
theorem countMain_runOp_le (op : Op) (s : PingPongState)
    (h : countMain s.balls ≤ 1) : countMain (runOp op s).balls ≤ 1 := by
  cases op with
  | updatePlayerPaddle y => exact h
  | togglePause => exact h
  | levelUp => rw [runOp, levelUp_balls]; exact h
  | setDifficultyLevel level => exact h
  | scorePoint side => rw [runOp, scorePoint_balls]; exact h
  | resetBall d c sn => rw [runOp, countMain_resetBall]
  | addExtraBalls specs now => rw [runOp, countMain_addExtraBalls s specs now h]
  | removeExtraBalls => rw [runOp, countMain_removeExtraBalls]
  | updateGame m p c r t => exact countMain_updateGameFull_le s m p c r t h

/-- C1 as amended (proved).  Every public operation preserves "at most
one ball has `isMainBall = true`"; `resetBall` and `removeExtraBalls`
always leave exactly one main ball, and `addExtraBalls` leaves exactly
one from any at-most-one state.  The frame update `updateGame` preserves
the at-most-one bound but not "exactly one": when the main ball crosses
the field edge the frame removes it and the state keeps zero main balls
until the deferred ball reset (or the next frame's empty-array fallback)
recreates it — see the counterexample. -/
theorem mainBall_preservation :
    (∀ (ops : List Op) (s : PingPongState), countMain s.balls ≤ 1 →
      countMain (runOps ops s).balls ≤ 1) ∧
    (∀ (s : PingPongState) (d c sn : ℚ), countMain (resetBall s d c sn).balls = 1) ∧
    (∀ (s : PingPongState) (specs : List (ℚ × ℚ × ℚ)) (now : ℕ),
      countMain s.balls ≤ 1 → countMain (addExtraBalls s specs now).balls = 1) ∧
    (∀ s : PingPongState, countMain (removeExtraBalls s).balls = 1) := by
  refine ⟨?_, countMain_resetBall, countMain_addExtraBalls, countMain_removeExtraBalls⟩
  intro ops
  induction ops with
  | nil => exact fun s h => h
  | cons op ops ih => exact fun s h => ih (runOp op s) (countMain_runOp_le op s h)

/-- Witness for C1 (amended): one frame on the initial state keeps at
most one main ball, and `addExtraBalls` on the initial (empty) array
yields exactly one. -/
theorem mainBall_preservation_witness :
    countMain (runOps [Op.updateGame 1 1 1 0 trigEx] initialPingPongState).balls ≤ 1 ∧
    countMain (addExtraBalls initialPingPongState [(1, 1, 1)] 7).balls = 1 :=
  ⟨mainBall_preservation.1 [Op.updateGame 1 1 1 0 trigEx] initialPingPongState
      (by norm_num [countMain, initialPingPongState]),
    mainBall_preservation.2.2.1 initialPingPongState [(1, 1, 1)] 7
      (by norm_num [countMain, initialPingPongState])⟩

/-- C1 counterexample.  From a running state with exactly one main ball
about to cross the right edge, one frame step (`updateGame` together
with the `scorePoint` it triggers) leaves the balls array with zero
main balls while the match is still actively running (started, not
over, not paused): the claimed "exactly one main ball after every
updateGame" fails in the interval between the scoring frame and the
deferred ball reset. -/
theorem mainBall_exactlyOne_counterexample :
    countMain exitExampleState.balls = 1 ∧
    exitExampleState.isGameStarted = true ∧
    exitExampleState.isGameOver = false ∧
    exitExampleState.isPaused = false ∧
    countMain (updateGameFull exitExampleState 1 1 1 0 trigEx).balls = 0 ∧
    (updateGameFull exitExampleState 1 1 1 0 trigEx).isGameStarted = true ∧
    (updateGameFull exitExampleState 1 1 1 0 trigEx).isGameOver = false ∧
    (updateGameFull exitExampleState 1 1 1 0 trigEx).isPaused = false := by
  refine ⟨?_, rfl, rfl, rfl, ?_, ?_, ?_, ?_⟩ <;>
    norm_num [updateGameFull, updateGame, updateBallPositions, computerPaddleTarget,
      createMainBall, scorePoint, levelUp, countMain, jsFalsyNum, exitExampleState,
      initialPingPongState, trigEx, List.countP_cons]
